import Mathlib

/-!
Verification development for the nanospline rational-geometry core:
`NURBS.h` (rational B-spline curve adapter over a homogeneous non-rational
B-spline engine) and `RevolutionPatch.h` (surface-of-revolution patch).

The NURBS adapter is embedded over ℚ (exact arithmetic; its operations are
field operations only).  The revolution patch is embedded over ℝ because its
operations use trigonometric functions and Euclidean norms.

Exceptions are embedded as `Except NanoError`.  The non-rational B-spline
engine is an external collaborator (out of scope per the spec); it is
embedded as a structure of arbitrary functions, so theorems quantify over
every possible engine.
-/

/-- The two semantic error kinds of the core: `not_implemented_error` and
`invalid_setting_error`. -/
inductive NanoError where
  | not_implemented : String → NanoError
  | invalid_setting : String → NanoError
deriving DecidableEq, Repr

/-- `e` is an invalid-configuration ("invalid setting") failure. -/
def Except.isInvalidSetting {α : Type} : Except NanoError α → Bool
  | Except.error (NanoError.invalid_setting _) => true
  | _ => false

/-- `e` is a not-implemented failure. -/
def Except.isNotImplemented {α : Type} : Except NanoError α → Bool
  | Except.error (NanoError.not_implemented _) => true
  | _ => false

namespace Nurbs

/-- A point of `dim`-dimensional space with rational coordinates
(an Eigen row vector). -/
abbrev Vec (dim : ℕ) := Fin dim → ℚ

/-- State of a non-rational B-spline curve: a control-point matrix (one row
per control point) and a knot vector. -/
structure BSpline (dim : ℕ) where
  control_points : List (Vec dim)
  knots : List ℚ

/-- The non-rational B-spline engine, an external collaborator given only by
its interface (`evaluate`, `evaluate_derivative`, `insert_knot`): arbitrary
functions of the control points, the knots and the parameter.
`insert_knot` returns the redistributed control points and the new knots. -/
structure BSplineEngine (dim : ℕ) where
  evaluate : List (Vec dim) → List ℚ → ℚ → Vec dim
  evaluate_derivative : List (Vec dim) → List ℚ → ℚ → Vec dim
  insert_knot : List (Vec dim) → List ℚ → ℚ → ℤ → List (Vec dim) × List ℚ

/-- State of a `NURBS<_Scalar, _dim, _degree, _generic>` object: the
`BSplineBase` fields (control points, knots, degree) plus the weight vector
and the cached homogeneous curve of dimension `dim + 1`. -/
structure NURBS (dim : ℕ) where
  control_points : List (Vec dim)
  knots : List ℚ
  degree : ℕ
  weights : List ℚ
  bspline_homogeneous : BSpline (dim + 1)

variable {dim : ℕ}

/-- Modelled from the spec: `BSplineBase::validate_curve` is not under
`src/`; the spec requires the knot sequence to have
`length = control points + degree + 1` and classifies a violation as an
invalid-configuration error. -/
def NURBS.validate_curve (c : NURBS dim) : Except NanoError Unit :=
  if c.knots.length = c.control_points.length + c.degree + 1 then
    Except.ok ()
  else
    Except.error (NanoError.invalid_setting "Invalid BSpline curve.")

/-- `NURBS::validate_initialization`: after `Base::validate_curve`, the
homogeneous control-point count must equal both the physical control-point
count and the weight count. -/
def NURBS.validate_initialization (c : NURBS dim) : Except NanoError Unit := do
  c.validate_curve
  if c.bspline_homogeneous.control_points.length ≠ c.control_points.length ∨
      c.bspline_homogeneous.control_points.length ≠ c.weights.length then
    Except.error (NanoError.invalid_setting "NURBS curve is not initialized.")
  else
    Except.ok ()

/-- The first `dim` components of a `(dim+1)`-vector (Eigen `head<_dim>()`). -/
def vhead (p : Vec (dim + 1)) : Vec dim := fun i => p i.castSucc

/-- The last component of a `(dim+1)`-vector (Eigen `p[_dim]`). -/
def vlast (p : Vec (dim + 1)) : ℚ := p (Fin.last dim)

/-- `NURBS::evaluate`: evaluate the homogeneous curve and divide the first
`dim` coordinates by the last. -/
def NURBS.evaluate (E : BSplineEngine (dim + 1)) (c : NURBS dim) (t : ℚ) :
    Except NanoError (Vec dim) := do
  c.validate_initialization
  let p := E.evaluate c.bspline_homogeneous.control_points
    c.bspline_homogeneous.knots t
  return fun i => vhead p i / vlast p

/-- `NURBS::inverse_evaluate`: unconditionally throws
`not_implemented_error("Too complex, sigh")`. -/
def NURBS.inverse_evaluate (_c : NURBS dim) (_p : Vec dim) :
    Except NanoError ℚ :=
  Except.error (NanoError.not_implemented "Too complex, sigh")

/-- `NURBS::evaluate_derivative`: quotient rule through the homogeneous
lift, `(d.head − p.head * d[dim] / p[dim]) / p[dim]`. -/
def NURBS.evaluate_derivative (E : BSplineEngine (dim + 1)) (c : NURBS dim)
    (t : ℚ) : Except NanoError (Vec dim) := do
  c.validate_initialization
  let p := E.evaluate c.bspline_homogeneous.control_points
    c.bspline_homogeneous.knots t
  let d := E.evaluate_derivative c.bspline_homogeneous.control_points
    c.bspline_homogeneous.knots t
  return fun i => (vhead d i - vhead p i * vlast d / vlast p) / vlast p

/-- `NURBS::evaluate_2nd_derivative`: unconditionally throws
`not_implemented_error("Too complex, sigh")`. -/
def NURBS.evaluate_2nd_derivative (_c : NURBS dim) (_t : ℚ) :
    Except NanoError (Vec dim) :=
  Except.error (NanoError.not_implemented "Too complex, sigh")

/-- `NURBS::insert_knot`: validate, delegate to the homogeneous engine, then
re-derive weights (trailing homogeneous column), physical control points
(leading `dim` columns divided row-wise by the weight column) and knots. -/
def NURBS.insert_knot (E : BSplineEngine (dim + 1)) (c : NURBS dim) (t : ℚ)
    (multiplicity : ℤ) : Except NanoError (NURBS dim) := do
  c.validate_initialization
  let res := E.insert_knot c.bspline_homogeneous.control_points
    c.bspline_homogeneous.knots t multiplicity
  let ctrl_pts := res.1
  return { c with
    bspline_homogeneous := { control_points := ctrl_pts, knots := res.2 }
    weights := ctrl_pts.map vlast
    control_points := ctrl_pts.map (fun r i => vhead r i / vlast r)
    knots := res.2 }

/-- `NURBS::initialize`: build the homogeneous control points
`(weight * point, weight)` row by row and copy the knots into the
homogeneous curve. -/
def NURBS.initialize (c : NURBS dim) : NURBS dim :=
  { c with
    bspline_homogeneous :=
      { control_points :=
          List.zipWith (fun p w => Fin.snoc (fun i => p i * w) w)
            c.control_points c.weights
        knots := c.knots } }

/-- `NURBS::get_homogeneous`. -/
def NURBS.get_homogeneous (c : NURBS dim) : BSpline (dim + 1) :=
  c.bspline_homogeneous

/-- `NURBS::set_homogeneous`: adopt the homogeneous curve, back-derive the
weights (trailing column), the physical control points (leading columns
divided by the weights) and the knots.  The C++ method then re-runs
`validate_initialization`; the state mutation itself is this function. -/
def NURBS.set_homogeneous (c : NURBS dim) (h : BSpline (dim + 1)) :
    NURBS dim :=
  { c with
    bspline_homogeneous := h
    weights := h.control_points.map vlast
    control_points := h.control_points.map (fun r i => vhead r i / vlast r)
    knots := h.knots }

end Nurbs

namespace Rev

/-- A point of 3-dimensional space with real coordinates (an Eigen row
vector); the revolution patch is 3D only. -/
abbrev RVec := Fin 3 → ℝ

/-- Euclidean dot product of 3-vectors. -/
def dot (a b : RVec) : ℝ := a 0 * b 0 + a 1 * b 1 + a 2 * b 2

/-- Cross product of 3-vectors (Eigen `a.cross(b)`). -/
def cross (a b : RVec) : RVec :=
  ![a 1 * b 2 - a 2 * b 1, a 2 * b 0 - a 0 * b 2, a 0 * b 1 - a 1 * b 0]

/-- Squared Euclidean norm. -/
def norm2 (a : RVec) : ℝ := dot a a

/-- Euclidean norm (Eigen `a.norm()`). -/
noncomputable def vnorm (a : RVec) : ℝ := Real.sqrt (norm2 a)

/-- Eigen `a.normalized()`: `a` divided by its norm. -/
noncomputable def normalized (a : RVec) : RVec := (vnorm a)⁻¹ • a

/-- Rotation of `x` by angle `θ` about the unit axis `k`
(Eigen `AngleAxis<Scalar>(θ, k)` applied to `x`), by the Rodrigues formula
`x cos θ + (k × x) sin θ + k (k · x) (1 − cos θ)`. -/
noncomputable def rotate (θ : ℝ) (k x : RVec) : RVec :=
  Real.cos θ • x + Real.sin θ • cross k x
    + ((1 - Real.cos θ) * dot k x) • k

/-- `std::numeric_limits<Scalar>::epsilon()` for `Scalar = double`. -/
noncomputable def machine_eps : ℝ := 1 / 2 ^ 52

/-- The absolute tolerance `epsilon() * 10` used by the degenerate-radius
guards and by `initialize`. -/
noncomputable def TOL : ℝ := machine_eps * 10

/-- The capability set of the 1D profile curve (`CurveBase`), an external
collaborator given only by its interface: arbitrary functions. -/
structure ProfileCurve where
  evaluate : ℝ → RVec
  evaluate_derivative : ℝ → RVec
  evaluate_2nd_derivative : ℝ → RVec
  get_periodic : Bool
  get_num_control_points : ℤ

/-- State of a `RevolutionPatch<_Scalar, 3>` object: its own fields plus
the `PatchBase` bookkeeping fields it uses (degrees and periodicity flags,
plain accessors per the spec).  `frame` holds the three frame rows;
`frame 2` is the rotation axis.  The non-owning profile pointer is an
`Option`: `none` is the null pointer. -/
structure RevolutionPatch where
  location : RVec
  frame : Fin 3 → RVec
  profile : Option ProfileCurve
  u_lower : ℝ
  u_upper : ℝ
  v_lower : ℝ
  v_upper : ℝ
  degree_u : ℕ
  degree_v : ℕ
  periodic_u : Bool
  periodic_v : Bool

/-- The `RevolutionPatch()` constructor: zero location, identity frame,
null profile, bounds `[0,1] × [0, 2π]`, degrees `(2, 2)`.  The `PatchBase`
periodicity flags start cleared. -/
noncomputable def RevolutionPatch.default : RevolutionPatch where
  location := ![0, 0, 0]
  frame := ![![1, 0, 0], ![0, 1, 0], ![0, 0, 1]]
  profile := none
  u_lower := 0
  u_upper := 1
  v_lower := 0
  v_upper := 2 * Real.pi
  degree_u := 2
  degree_v := 2
  periodic_u := false
  periodic_v := false

/-- `RevolutionPatch::assert_valid_profile`: throws
`invalid_setting_error("Profile not set!")` when the profile pointer is
null, and otherwise yields the profile. -/
def RevolutionPatch.assert_valid_profile (p : RevolutionPatch) :
    Except NanoError ProfileCurve :=
  match p.profile with
  | none => Except.error (NanoError.invalid_setting "Profile not set!")
  | some prof => Except.ok prof

/-- `RevolutionPatch::evaluate`: evaluate the profile at `u`, rotate the
offset from the location by angle `v` about the axis, translate back. -/
noncomputable def RevolutionPatch.evaluate (p : RevolutionPatch)
    (u v : ℝ) : Except NanoError RVec := do
  let prof ← p.assert_valid_profile
  return p.location + rotate v (p.frame 2) (prof.evaluate u - p.location)

/-- `RevolutionPatch::evaluate_derivative_u`: rotate the profile's
derivative at `u` by angle `v` about the axis. -/
noncomputable def RevolutionPatch.evaluate_derivative_u (p : RevolutionPatch)
    (u v : ℝ) : Except NanoError RVec := do
  let prof ← p.assert_valid_profile
  return rotate v (p.frame 2) (prof.evaluate_derivative u)

/-- `RevolutionPatch::evaluate_derivative_v`: `d = axis × (point − location)`;
unless `‖d‖` is at or below `TOL`, normalize `d` and rescale it by
`r = ‖w − (w · axis) axis‖` where `w = point − location`. -/
noncomputable def RevolutionPatch.evaluate_derivative_v (p : RevolutionPatch)
    (u v : ℝ) : Except NanoError RVec := do
  let pt ← p.evaluate u v
  let d := cross (p.frame 2) (pt - p.location)
  if vnorm d > TOL then
    let w := pt - p.location
    let r := vnorm (w - dot w (p.frame 2) • p.frame 2)
    return r • normalized d
  else
    return d

/-- `RevolutionPatch::evaluate_2nd_derivative_uu`: rotate the profile's
second derivative at `u` by angle `v` about the axis. -/
noncomputable def RevolutionPatch.evaluate_2nd_derivative_uu
    (p : RevolutionPatch) (u v : ℝ) : Except NanoError RVec := do
  let prof ← p.assert_valid_profile
  return rotate v (p.frame 2) (prof.evaluate_2nd_derivative u)

/-- `RevolutionPatch::evaluate_2nd_derivative_vv`:
`−d + (d · axis) axis` where `d = point − location`. -/
noncomputable def RevolutionPatch.evaluate_2nd_derivative_vv
    (p : RevolutionPatch) (u v : ℝ) : Except NanoError RVec := do
  let pt ← p.evaluate u v
  let d := pt - p.location
  return -d + dot d (p.frame 2) • p.frame 2

/-- `RevolutionPatch::evaluate_2nd_derivative_uv`: `duv = axis × du`;
unless `‖duv‖` is at or below `TOL`, normalize `duv` and rescale it by
`r = ‖duv − (duv · axis) axis‖`. -/
noncomputable def RevolutionPatch.evaluate_2nd_derivative_uv
    (p : RevolutionPatch) (u v : ℝ) : Except NanoError RVec := do
  let du ← p.evaluate_derivative_u u v
  let duv := cross (p.frame 2) du
  if vnorm duv > TOL then
    let r := vnorm (duv - dot duv (p.frame 2) • p.frame 2)
    return r • normalized duv
  else
    return duv

/-- `RevolutionPatch::initialize`: requires a non-null profile, inherits
u-periodicity from the profile and marks the patch v-periodic when the
v-span covers a full turn within `TOL`.  The frame-orthonormality and
bound-ordering `assert`s are debug-build checks (no-ops in release builds)
and do not alter the state transition. -/
noncomputable def RevolutionPatch.initialize (p : RevolutionPatch) :
    Except NanoError RevolutionPatch := do
  let prof ← p.assert_valid_profile
  return { p with
    periodic_u := prof.get_periodic
    periodic_v :=
      if p.v_upper - p.v_lower > 2 * Real.pi - TOL then true
      else p.periodic_v }

/-- `RevolutionPatch::get_num_weights_u`: returns `0` (never throws). -/
def RevolutionPatch.get_num_weights_u (_p : RevolutionPatch) :
    Except NanoError ℤ := Except.ok 0

/-- `RevolutionPatch::get_num_weights_v`: returns `0` (never throws). -/
def RevolutionPatch.get_num_weights_v (_p : RevolutionPatch) :
    Except NanoError ℤ := Except.ok 0

/-- `RevolutionPatch::get_weight`: always throws `not_implemented_error`. -/
def RevolutionPatch.get_weight (_p : RevolutionPatch) (_i _j : ℤ) :
    Except NanoError ℝ :=
  Except.error
    (NanoError.not_implemented "RevolutionPatch patch does not support weight")

/-- `RevolutionPatch::set_weight`: always throws `not_implemented_error`. -/
def RevolutionPatch.set_weight (_p : RevolutionPatch) (_i _j : ℤ) (_val : ℝ) :
    Except NanoError RevolutionPatch :=
  Except.error
    (NanoError.not_implemented "RevolutionPatch patch does not support weight")

/-- `RevolutionPatch::get_num_knots_u`: returns `0` (never throws). -/
def RevolutionPatch.get_num_knots_u (_p : RevolutionPatch) :
    Except NanoError ℤ := Except.ok 0

/-- `RevolutionPatch::get_knot_u`: always throws `not_implemented_error`. -/
def RevolutionPatch.get_knot_u (_p : RevolutionPatch) (_i : ℤ) :
    Except NanoError ℝ :=
  Except.error
    (NanoError.not_implemented "RevolutionPatch patch does not support knots")

/-- `RevolutionPatch::set_knot_u`: always throws `not_implemented_error`. -/
def RevolutionPatch.set_knot_u (_p : RevolutionPatch) (_i : ℤ) (_val : ℝ) :
    Except NanoError RevolutionPatch :=
  Except.error
    (NanoError.not_implemented "RevolutionPatch patch does not support knots")

/-- `RevolutionPatch::get_num_knots_v`: returns `0` (never throws). -/
def RevolutionPatch.get_num_knots_v (_p : RevolutionPatch) :
    Except NanoError ℤ := Except.ok 0

/-- `RevolutionPatch::get_knot_v`: always throws `not_implemented_error`. -/
def RevolutionPatch.get_knot_v (_p : RevolutionPatch) (_i : ℤ) :
    Except NanoError ℝ :=
  Except.error
    (NanoError.not_implemented "RevolutionPatch patch does not support knots")

/-- `RevolutionPatch::set_knot_v`: always throws `not_implemented_error`. -/
def RevolutionPatch.set_knot_v (_p : RevolutionPatch) (_i : ℤ) (_val : ℝ) :
    Except NanoError RevolutionPatch :=
  Except.error
    (NanoError.not_implemented "RevolutionPatch patch does not support knots")

/-- `RevolutionPatch::num_control_points_u`: returns `0` (never throws). -/
def RevolutionPatch.num_control_points_u (_p : RevolutionPatch) :
    Except NanoError ℤ := Except.ok 0

/-- `RevolutionPatch::num_control_points_v`: returns `0` (never throws). -/
def RevolutionPatch.num_control_points_v (_p : RevolutionPatch) :
    Except NanoError ℤ := Except.ok 0

/-- `RevolutionPatch::get_control_point_preimage`: always throws
`not_implemented_error`. -/
def RevolutionPatch.get_control_point_preimage (_p : RevolutionPatch)
    (_i _j : ℤ) : Except NanoError (Fin 2 → ℝ) :=
  Except.error
    (NanoError.not_implemented "RevolutionPatch does not need control points.")

end Rev

section Examples

/-- A concrete B-spline engine instance (the engine is a black box; any
instance of the interface will do for witnesses). -/
def testEngine : Nurbs.BSplineEngine 2 where
  evaluate := fun _ _ _ => ![2, 1]
  evaluate_derivative := fun _ _ _ => ![3, 5]
  insert_knot := fun cps ks _ _ => (cps, ks)

/-- A concrete 1-dimensional, degree-0 NURBS curve in the initialized state:
one control point `(2)`, weight `1`, knots `[0, 1]`, homogeneous control
point `(2, 1)`. -/
def nurbsEx : Nurbs.NURBS 1 where
  control_points := [![2]]
  knots := [0, 1]
  degree := 0
  weights := [1]
  bspline_homogeneous := { control_points := [![2, 1]], knots := [0, 1] }

/-- A concrete NURBS curve whose cached homogeneous control-point count (0)
differs from the physical control-point count (1) and the weight count (1):
the uninitialized state. -/
def nurbsStale : Nurbs.NURBS 1 where
  control_points := [![1]]
  knots := [0, 1]
  degree := 0
  weights := [1]
  bspline_homogeneous := { control_points := [], knots := [] }

/-- The straight line segment from `(1,0,0)` to `(1,1,0)` parameterized on
`[0,1]`: `u ↦ (1, u, 0)`. -/
def lineProfile : Rev.ProfileCurve where
  evaluate := fun u => ![1, u, 0]
  evaluate_derivative := fun _ => ![0, 1, 0]
  evaluate_2nd_derivative := fun _ => ![0, 0, 0]
  get_periodic := false
  get_num_control_points := 2

/-- A default-constructed revolution patch (identity frame, zero location)
whose profile is `lineProfile`. -/
noncomputable def linePatch : Rev.RevolutionPatch :=
  { Rev.RevolutionPatch.default with profile := some lineProfile }

/-- The result of `insert_knot testEngine nurbsEx 0 1`, written as the
expressions `insert_knot` produces. -/
def nurbsExInserted : Nurbs.NURBS 1 where
  control_points := [![(2 : ℚ), 1]].map (fun r i => Nurbs.vhead r i / Nurbs.vlast r)
  knots := [0, 1]
  degree := 0
  weights := [![(2 : ℚ), 1]].map Nurbs.vlast
  bspline_homogeneous := { control_points := [![2, 1]], knots := [0, 1] }

/-- The point `evaluate(0, 0)` of `linePatch`, written as the expression
`RevolutionPatch::evaluate` produces. -/
noncomputable def c8pt : Rev.RVec :=
  linePatch.location
    + Rev.rotate 0 (linePatch.frame 2) (lineProfile.evaluate 0 - linePatch.location)

/-- `linePatch` marked v-periodic with its v-bounds then narrowed to
`[0, 1]`, i.e. to less than a full turn. -/
noncomputable def narrowedPatch : Rev.RevolutionPatch :=
  { linePatch with periodic_v := true, v_lower := 0, v_upper := 1 }

/-- The result of re-running `initialize` on `narrowedPatch`, written as
the expressions `initialize` produces. -/
noncomputable def narrowedPatchInit : Rev.RevolutionPatch :=
  { narrowedPatch with
    periodic_u := lineProfile.get_periodic
    periodic_v :=
      if narrowedPatch.v_upper - narrowedPatch.v_lower > 2 * Real.pi - Rev.TOL
      then true else narrowedPatch.periodic_v }

end Examples

/-- C4: for every NURBS curve in every state and every input,
`evaluate_2nd_derivative(t)` and `inverse_evaluate(point)` both fail with a
not-implemented error; neither ever returns a value. -/
theorem nurbs_second_derivative_and_inverse_evaluate_not_implemented :
    ∀ (dim : ℕ) (c : Nurbs.NURBS dim) (t : ℚ) (pt : Nurbs.Vec dim),
      c.evaluate_2nd_derivative t
          = Except.error (NanoError.not_implemented "Too complex, sigh") ∧
        c.inverse_evaluate pt
          = Except.error (NanoError.not_implemented "Too complex, sigh") :=
  fun _ _ _ _ => ⟨rfl, rfl⟩

/-- C1: on an initialized NURBS curve, at a parameter where the last
homogeneous coordinate is non-zero, `evaluate_derivative(t)` is the
quotient-rule expression `(d_head − p_head * d_last / p_last) / p_last`,
with `p` the homogeneous curve at `t` and `d` its derivative at `t`. -/
theorem nurbs_evaluate_derivative_quotient_rule {dim : ℕ}
    (E : Nurbs.BSplineEngine (dim + 1)) (c : Nurbs.NURBS dim) (t : ℚ)
    (hinit : c.validate_initialization = Except.ok ())
    (hlast : Nurbs.vlast (E.evaluate c.bspline_homogeneous.control_points
      c.bspline_homogeneous.knots t) ≠ 0) :
    Nurbs.NURBS.evaluate_derivative E c t = Except.ok (fun i =>
      (Nurbs.vhead (E.evaluate_derivative c.bspline_homogeneous.control_points
            c.bspline_homogeneous.knots t) i
          - Nurbs.vhead (E.evaluate c.bspline_homogeneous.control_points
              c.bspline_homogeneous.knots t) i
            * Nurbs.vlast (E.evaluate_derivative
                c.bspline_homogeneous.control_points
                c.bspline_homogeneous.knots t)
            / Nurbs.vlast (E.evaluate c.bspline_homogeneous.control_points
                c.bspline_homogeneous.knots t))
        / Nurbs.vlast (E.evaluate c.bspline_homogeneous.control_points
            c.bspline_homogeneous.knots t)) := by
  unfold Nurbs.NURBS.evaluate_derivative
  rw [hinit]
  rfl

/-- Witness for C1 at the concrete engine `testEngine`, curve `nurbsEx` and
parameter `t = 0`. -/
theorem nurbs_evaluate_derivative_quotient_rule_witness :
    Nurbs.NURBS.validate_initialization nurbsEx = Except.ok () ∧
      Nurbs.vlast (testEngine.evaluate nurbsEx.bspline_homogeneous.control_points
        nurbsEx.bspline_homogeneous.knots 0) ≠ 0 ∧
      Nurbs.NURBS.evaluate_derivative testEngine nurbsEx 0 = Except.ok (fun i =>
        (Nurbs.vhead (testEngine.evaluate_derivative
              nurbsEx.bspline_homogeneous.control_points
              nurbsEx.bspline_homogeneous.knots 0) i
            - Nurbs.vhead (testEngine.evaluate
                nurbsEx.bspline_homogeneous.control_points
                nurbsEx.bspline_homogeneous.knots 0) i
              * Nurbs.vlast (testEngine.evaluate_derivative
                  nurbsEx.bspline_homogeneous.control_points
                  nurbsEx.bspline_homogeneous.knots 0)
              / Nurbs.vlast (testEngine.evaluate
                  nurbsEx.bspline_homogeneous.control_points
                  nurbsEx.bspline_homogeneous.knots 0))
          / Nurbs.vlast (testEngine.evaluate
              nurbsEx.bspline_homogeneous.control_points
              nurbsEx.bspline_homogeneous.knots 0)) :=
  ⟨rfl, by decide,
    nurbs_evaluate_derivative_quotient_rule testEngine nurbsEx 0 rfl (by decide)⟩

/-- C2 counterexample: on a default-constructed revolution patch,
`get_num_weights_u` returns the value `0`; it does not fail with a
not-implemented error, contradicting the claim that every weight/knot/
control-point accessor fails rather than returning a degenerate value. -/
theorem revolution_count_accessor_returns_zero_counterexample :
    Rev.RevolutionPatch.get_num_weights_u Rev.RevolutionPatch.default
        = Except.ok 0 ∧
      Except.isNotImplemented
        (Rev.RevolutionPatch.get_num_weights_u Rev.RevolutionPatch.default)
        = false :=
  ⟨rfl, rfl⟩

/-- C2 amended: on every revolution patch the indexed accessors
(`get_weight`, `set_weight`, `get_knot_u`, `set_knot_u`, `get_knot_v`,
`set_knot_v`, `get_control_point_preimage`) fail with a not-implemented
error, while the count accessors (`get_num_weights_u/v`,
`get_num_knots_u/v`, `num_control_points_u/v`) return `0`. -/
theorem revolution_accessor_surface_behavior :
    ∀ (p : Rev.RevolutionPatch) (i j : ℤ) (val : ℝ),
      p.get_weight i j = Except.error (NanoError.not_implemented
          "RevolutionPatch patch does not support weight") ∧
        p.set_weight i j val = Except.error (NanoError.not_implemented
          "RevolutionPatch patch does not support weight") ∧
        p.get_knot_u i = Except.error (NanoError.not_implemented
          "RevolutionPatch patch does not support knots") ∧
        p.set_knot_u i val = Except.error (NanoError.not_implemented
          "RevolutionPatch patch does not support knots") ∧
        p.get_knot_v i = Except.error (NanoError.not_implemented
          "RevolutionPatch patch does not support knots") ∧
        p.set_knot_v i val = Except.error (NanoError.not_implemented
          "RevolutionPatch patch does not support knots") ∧
        p.get_control_point_preimage i j = Except.error
          (NanoError.not_implemented
            "RevolutionPatch does not need control points.") ∧
        p.get_num_weights_u = Except.ok 0 ∧
        p.get_num_weights_v = Except.ok 0 ∧
        p.get_num_knots_u = Except.ok 0 ∧
        p.get_num_knots_v = Except.ok 0 ∧
        p.num_control_points_u = Except.ok 0 ∧
        p.num_control_points_v = Except.ok 0 :=
  fun _ _ _ _ =>
    ⟨rfl, rfl, rfl, rfl, rfl, rfl, rfl, rfl, rfl, rfl, rfl, rfl, rfl⟩

/-- On a count-mismatched curve, `validate_initialization` yields an
invalid-configuration error (either its own check fires, or the
knot-count check of `validate_curve` fires first; both are
`invalid_setting`). -/
theorem nurbs_validate_initialization_mismatch {dim : ℕ}
    (c : Nurbs.NURBS dim)
    (h : c.bspline_homogeneous.control_points.length
          ≠ c.control_points.length ∨
        c.bspline_homogeneous.control_points.length ≠ c.weights.length) :
    Except.isInvalidSetting c.validate_initialization = true := by
  unfold Nurbs.NURBS.validate_initialization Nurbs.NURBS.validate_curve
  rw [if_pos h]
  split
  · rfl
  · rfl

/-- C5 counterexample: `nurbsStale` has a homogeneous control-point count
(0) differing from its physical control-point count (1), yet
`inverse_evaluate` does not fail with an invalid-configuration error (it
fails with a not-implemented error instead). -/
theorem nurbs_stale_inverse_evaluate_not_invalid_setting :
    (nurbsStale.bspline_homogeneous.control_points.length
          ≠ nurbsStale.control_points.length ∨
        nurbsStale.bspline_homogeneous.control_points.length
          ≠ nurbsStale.weights.length) ∧
      Except.isInvalidSetting (nurbsStale.inverse_evaluate ![0]) = false :=
  ⟨by decide, rfl⟩

/-- C5 amended: on a curve whose cached homogeneous control-point count
differs from the physical control-point count or the weight count,
`evaluate` and `evaluate_derivative` fail with an invalid-configuration
error, while `inverse_evaluate` fails with its unconditional
not-implemented error. -/
theorem nurbs_stale_queries_fail {dim : ℕ}
    (E : Nurbs.BSplineEngine (dim + 1)) (c : Nurbs.NURBS dim) (t : ℚ)
    (pt : Nurbs.Vec dim)
    (h : c.bspline_homogeneous.control_points.length
          ≠ c.control_points.length ∨
        c.bspline_homogeneous.control_points.length ≠ c.weights.length) :
    Except.isInvalidSetting (Nurbs.NURBS.evaluate E c t) = true ∧
      Except.isInvalidSetting (Nurbs.NURBS.evaluate_derivative E c t) = true ∧
      c.inverse_evaluate pt
        = Except.error (NanoError.not_implemented "Too complex, sigh") := by
  have hv := nurbs_validate_initialization_mismatch c h
  cases he : c.validate_initialization with
  | ok u =>
    rw [he] at hv
    simp [Except.isInvalidSetting] at hv
  | error e =>
    cases e with
    | not_implemented m =>
      rw [he] at hv
      simp [Except.isInvalidSetting] at hv
    | invalid_setting m =>
      refine ⟨?_, ?_, rfl⟩
      · unfold Nurbs.NURBS.evaluate
        rw [he]
        rfl
      · unfold Nurbs.NURBS.evaluate_derivative
        rw [he]
        rfl

/-- Witness for the amended C5 at the concrete stale curve `nurbsStale`. -/
theorem nurbs_stale_queries_fail_witness :
    (nurbsStale.bspline_homogeneous.control_points.length
          ≠ nurbsStale.control_points.length ∨
        nurbsStale.bspline_homogeneous.control_points.length
          ≠ nurbsStale.weights.length) ∧
      Except.isInvalidSetting (Nurbs.NURBS.evaluate testEngine nurbsStale 0)
          = true ∧
      Except.isInvalidSetting
          (Nurbs.NURBS.evaluate_derivative testEngine nurbsStale 0) = true ∧
      nurbsStale.inverse_evaluate ![0]
        = Except.error (NanoError.not_implemented "Too complex, sigh") := by
  have h := nurbs_stale_queries_fail testEngine nurbsStale 0 ![0] (by decide)
  exact ⟨by decide, h.1, h.2.1, h.2.2⟩

/-- C6: after a successful `insert_knot` on an initialized NURBS curve with
non-zero weights, the physical control points are the leading columns of
the homogeneous control points divided row-wise by the trailing column, the
weights are the trailing column, and the knots are the homogeneous curve's
knots. -/
theorem nurbs_insert_knot_consistency {dim : ℕ}
    (E : Nurbs.BSplineEngine (dim + 1)) (c c' : Nurbs.NURBS dim) (t : ℚ)
    (m : ℤ)
    (hinit : c.validate_initialization = Except.ok ())
    (hw : ∀ w ∈ c.weights, w ≠ 0)
    (h : Nurbs.NURBS.insert_knot E c t m = Except.ok c') :
    c'.control_points = c'.bspline_homogeneous.control_points.map
        (fun r i => Nurbs.vhead r i / Nurbs.vlast r) ∧
      c'.weights = c'.bspline_homogeneous.control_points.map Nurbs.vlast ∧
      c'.knots = c'.bspline_homogeneous.knots := by
  unfold Nurbs.NURBS.insert_knot at h
  rw [hinit] at h
  have h2 := Except.ok.inj h
  subst h2
  exact ⟨rfl, rfl, rfl⟩

/-- Witness for C6 at the concrete engine `testEngine` and curve
`nurbsEx`, whose insertion result is `nurbsExInserted`. -/
theorem nurbs_insert_knot_consistency_witness :
    Nurbs.NURBS.validate_initialization nurbsEx = Except.ok () ∧
      (∀ w ∈ nurbsEx.weights, w ≠ 0) ∧
      Nurbs.NURBS.insert_knot testEngine nurbsEx 0 1
        = Except.ok nurbsExInserted ∧
      nurbsExInserted.control_points
        = nurbsExInserted.bspline_homogeneous.control_points.map
            (fun r i => Nurbs.vhead r i / Nurbs.vlast r) ∧
      nurbsExInserted.weights
        = nurbsExInserted.bspline_homogeneous.control_points.map
            Nurbs.vlast ∧
      nurbsExInserted.knots = nurbsExInserted.bspline_homogeneous.knots := by
  have h := nurbs_insert_knot_consistency testEngine nurbsEx nurbsExInserted
    0 1 rfl (by decide) rfl
  exact ⟨rfl, by decide, rfl, h.1, h.2.1, h.2.2⟩

/-- Row-wise round trip of the homogeneous lift: mapping
`(w·p, w) ↦ ((w·p)/w, w)` over the lifted rows recovers the original
control points and weights when no weight is zero. -/
theorem nurbs_lift_roundtrip_rows {dim : ℕ} :
    ∀ (cps : List (Nurbs.Vec dim)) (ws : List ℚ),
      ws.length = cps.length → (∀ w ∈ ws, w ≠ 0) →
      (List.zipWith (fun p w => Fin.snoc (fun i => p i * w) w) cps ws).map
          (fun r i => Nurbs.vhead r i / Nurbs.vlast r) = cps ∧
        (List.zipWith (fun p w => Fin.snoc (fun i => p i * w) w) cps ws).map
          Nurbs.vlast = ws := by
  intro cps
  induction cps with
  | nil =>
    intro ws hlen _
    rw [List.length_nil] at hlen
    rw [List.length_eq_zero] at hlen
    subst hlen
    exact ⟨rfl, rfl⟩
  | cons p ps ih =>
    intro ws hlen hw
    cases ws with
    | nil => simp at hlen
    | cons w ws' =>
      have hw0 : w ≠ 0 := hw w (List.mem_cons_self _ _)
      have hih := ih ws' (by simpa using hlen)
        (fun x hx => hw x (List.mem_cons_of_mem _ hx))
      constructor
      · simp only [List.zipWith_cons_cons, List.map_cons, hih.1]
        congr 1
        funext i
        show Nurbs.vhead (Fin.snoc (fun j => p j * w) w) i
            / Nurbs.vlast (Fin.snoc (fun j => p j * w) w) = p i
        unfold Nurbs.vhead Nurbs.vlast
        rw [Fin.snoc_castSucc, Fin.snoc_last]
        exact mul_div_cancel_right₀ _ hw0
      · simp only [List.zipWith_cons_cons, List.map_cons, hih.2]
        congr 1
        exact Fin.snoc_last _ _

/-- C7: for a NURBS curve with non-zero weights (and as many weights as
control points) on which `initialize()` has been run, the round trip
`set_homogeneous(get_homogeneous())` reproduces the physical control
points and the weights exactly. -/
theorem nurbs_set_get_homogeneous_roundtrip {dim : ℕ} (c : Nurbs.NURBS dim)
    (hlen : c.weights.length = c.control_points.length)
    (hw : ∀ w ∈ c.weights, w ≠ 0) :
    ( Nurbs.NURBS.set_homogeneous c.initialize c.initialize.get_homogeneous).control_points
        = c.control_points ∧
      ( Nurbs.NURBS.set_homogeneous c.initialize c.initialize.get_homogeneous).weights
        = c.weights := by
  have h := nurbs_lift_roundtrip_rows c.control_points c.weights hlen hw
  exact ⟨h.1, h.2⟩

/-- Witness for C7 at the concrete curve `nurbsEx`. -/
theorem nurbs_set_get_homogeneous_roundtrip_witness :
    nurbsEx.weights.length = nurbsEx.control_points.length ∧
      (∀ w ∈ nurbsEx.weights, w ≠ 0) ∧
      ( Nurbs.NURBS.set_homogeneous nurbsEx.initialize
          nurbsEx.initialize.get_homogeneous).control_points
        = nurbsEx.control_points ∧
      ( Nurbs.NURBS.set_homogeneous nurbsEx.initialize
          nurbsEx.initialize.get_homogeneous).weights = nurbsEx.weights := by
  have h := nurbs_set_get_homogeneous_roundtrip nurbsEx rfl (by decide)
  exact ⟨rfl, by decide, h.1, h.2⟩

/-- Spec-side notion for C8: the perpendicular distance of the point `q`
from the rotation axis, the line through `loc` with unit direction `k`,
computed as the norm of the axis-orthogonal component of `q − loc`. -/
noncomputable def Rev.perp_distance (loc k q : Rev.RVec) : ℝ :=
  Rev.vnorm ((q - loc) - Rev.dot (q - loc) k • k)

/-- Reduction of an `Except` bind at an `ok` value. -/
theorem except_bind_ok {α β : Type} (a : α) (f : α → Except NanoError β) :
    (Except.ok a : Except NanoError α) >>= f = f a := rfl

/-- `evaluate` on a patch with a non-null profile. -/
theorem rev_evaluate_some (p : Rev.RevolutionPatch) (prof : Rev.ProfileCurve)
    (u v : ℝ) (h : p.profile = some prof) :
    p.evaluate u v = Except.ok (p.location
      + Rev.rotate v (p.frame 2) (prof.evaluate u - p.location)) := by
  unfold Rev.RevolutionPatch.evaluate Rev.RevolutionPatch.assert_valid_profile
  rw [h]
  rfl

/-- The point of `linePatch` at `(u, v) = (1/2, π/2)`: rotating
`(1, 1/2, 0)` by 90° about the z-axis gives `(−1/2, 1, 0)`. -/
theorem linePatch_eval_val :
    linePatch.location + Rev.rotate (Real.pi / 2) (linePatch.frame 2)
      (lineProfile.evaluate (1 / 2) - linePatch.location)
      = ![-(1 / 2 : ℝ), 1, 0] := by
  funext i
  fin_cases i <;>
    norm_num [linePatch, lineProfile, Rev.RevolutionPatch.default, Rev.rotate,
      Rev.cross, Rev.dot, Matrix.vecHead, Matrix.vecTail,
      Real.cos_pi_div_two, Real.sin_pi_div_two]

/-- C3 counterexample: the revolution patch with identity frame, zero
location and the line profile `u ↦ (1, u, 0)` does not evaluate to
`(0, 1/2, 1)` at `(u, v) = (1/2, π/2)`: the axis is `frame.row(2) = z`,
and rotating `(1, 1/2, 0)` by 90° about z gives `(−1/2, 1, 0)`. -/
theorem revolution_eval_scenario_counterexample :
    Rev.RevolutionPatch.evaluate linePatch (1 / 2) (Real.pi / 2)
      ≠ Except.ok ![0, 1 / 2, 1] := by
  rw [rev_evaluate_some linePatch lineProfile (1 / 2) (Real.pi / 2) rfl,
    linePatch_eval_val]
  intro hcontra
  have h0 := congrFun (Except.ok.inj hcontra) 0
  norm_num [Matrix.cons_val_zero] at h0

/-- C3 amended: that patch evaluated at `(u, v) = (1/2, π/2)` yields
`(−1/2, 1, 0)` (rotating `(1, 1/2, 0)` by 90° about the z-axis). -/
theorem revolution_eval_scenario :
    Rev.RevolutionPatch.evaluate linePatch (1 / 2) (Real.pi / 2)
      = Except.ok ![-(1 / 2 : ℝ), 1, 0] := by
  rw [rev_evaluate_some linePatch lineProfile (1 / 2) (Real.pi / 2) rfl,
    linePatch_eval_val]

/-- C9: a successful `initialize` leaves the patch v-periodic exactly when
it already was v-periodic or the v-span exceeds a full turn minus the
tolerance: the flag is only ever set, never cleared, so narrowing the
v-bounds of a v-periodic patch and re-running `initialize` leaves it
v-periodic. -/
theorem revolution_initialize_periodic_v_sticky (p q : Rev.RevolutionPatch)
    (h : p.initialize = Except.ok q) :
    q.periodic_v = true
      ↔ (p.periodic_v = true
        ∨ p.v_upper - p.v_lower > 2 * Real.pi - Rev.TOL) := by
  unfold Rev.RevolutionPatch.initialize
    Rev.RevolutionPatch.assert_valid_profile at h
  cases hp : p.profile with
  | none =>
    rw [hp] at h
    simp at h
  | some prof =>
    rw [hp] at h
    have hq := Except.ok.inj h
    subst hq
    by_cases hc : p.v_upper - p.v_lower > 2 * Real.pi - Rev.TOL
    · simp [hc]
    · simp [hc]

/-- Witness for C9: `narrowedPatch` is v-periodic with v-bounds narrowed to
`[0, 1]` (less than a full turn); re-running `initialize` yields
`narrowedPatchInit`, still v-periodic. -/
theorem revolution_initialize_periodic_v_sticky_witness :
    Rev.RevolutionPatch.initialize narrowedPatch
        = Except.ok narrowedPatchInit ∧
      narrowedPatchInit.periodic_v = true := by
  have h : Rev.RevolutionPatch.initialize narrowedPatch
      = Except.ok narrowedPatchInit := rfl
  exact ⟨h, (revolution_initialize_periodic_v_sticky narrowedPatch
    narrowedPatchInit h).mpr (Or.inl rfl)⟩

/-- C8: on a patch with non-null profile and unit rotation axis,
`evaluate_derivative_v(u, v)` is the cross product
`axis × (point − location)` normalized and rescaled to the point's
perpendicular distance from the axis, except that when the cross product's
norm is at or below the tolerance the un-rescaled cross product is
returned. -/
theorem revolution_derivative_v_formula (p : Rev.RevolutionPatch)
    (prof : Rev.ProfileCurve) (u v : ℝ)
    (hprof : p.profile = some prof)
    (hunit : Rev.norm2 (p.frame 2) = 1) :
    ∀ pt, p.evaluate u v = Except.ok pt →
      p.evaluate_derivative_v u v = Except.ok (
        if Rev.vnorm (Rev.cross (p.frame 2) (pt - p.location)) > Rev.TOL then
          Rev.perp_distance p.location (p.frame 2) pt •
            Rev.normalized (Rev.cross (p.frame 2) (pt - p.location))
        else Rev.cross (p.frame 2) (pt - p.location)) := by
  intro pt hpt
  unfold Rev.RevolutionPatch.evaluate_derivative_v
  rw [hpt]
  simp only [except_bind_ok]
  by_cases hc : Rev.vnorm (Rev.cross (p.frame 2) (pt - p.location)) > Rev.TOL
  · rw [if_pos hc, if_pos hc]
    rfl
  · rw [if_neg hc, if_neg hc]
    rfl

/-- The rotation axis of `linePatch` (the z-axis) is a unit vector. -/
theorem linePatch_axis_unit : Rev.norm2 (linePatch.frame 2) = 1 := by
  norm_num [linePatch, Rev.RevolutionPatch.default, Rev.norm2, Rev.dot,
    Matrix.vecHead, Matrix.vecTail]

/-- Witness for C8 at `linePatch` and `(u, v) = (0, 0)`, where the surface
point is `c8pt = (1, 0, 0)`. -/
theorem revolution_derivative_v_formula_witness :
    linePatch.profile = some lineProfile ∧
      Rev.norm2 (linePatch.frame 2) = 1 ∧
      Rev.RevolutionPatch.evaluate linePatch 0 0 = Except.ok c8pt ∧
      Rev.RevolutionPatch.evaluate_derivative_v linePatch 0 0 = Except.ok (
        if Rev.vnorm (Rev.cross (linePatch.frame 2) (c8pt - linePatch.location))
            > Rev.TOL then
          Rev.perp_distance linePatch.location (linePatch.frame 2) c8pt •
            Rev.normalized
              (Rev.cross (linePatch.frame 2) (c8pt - linePatch.location))
        else Rev.cross (linePatch.frame 2) (c8pt - linePatch.location)) :=
  ⟨rfl, linePatch_axis_unit, rfl,
    revolution_derivative_v_formula linePatch lineProfile 0 0 rfl
      linePatch_axis_unit c8pt rfl⟩

/-- The cross product is orthogonal to its first factor. -/
theorem cross_dot_self_left (a b : Rev.RVec) :
    Rev.dot (Rev.cross a b) a = 0 := by
  simp [Rev.dot, Rev.cross, Matrix.vecHead, Matrix.vecTail]
  ring

/-- The degenerate-radius tolerance is positive. -/
theorem rev_TOL_pos : 0 < Rev.TOL := by
  unfold Rev.TOL Rev.machine_eps
  norm_num

/-- C10: on a patch with non-null profile and unit rotation axis,
`evaluate_2nd_derivative_uv(u, v)` equals `frame.row(2) × du` where `du` is
`evaluate_derivative_u(u, v)`: the cross product is orthogonal to the axis,
so the computed radius equals its own norm and the normalize-and-rescale
branch is the identity. -/
theorem revolution_2nd_derivative_uv_cross (p : Rev.RevolutionPatch)
    (prof : Rev.ProfileCurve) (u v : ℝ)
    (hprof : p.profile = some prof)
    (hunit : Rev.norm2 (p.frame 2) = 1) :
    ∀ du, p.evaluate_derivative_u u v = Except.ok du →
      p.evaluate_2nd_derivative_uv u v
        = Except.ok (Rev.cross (p.frame 2) du) := by
  intro du hdu
  unfold Rev.RevolutionPatch.evaluate_2nd_derivative_uv
  rw [hdu]
  simp only [except_bind_ok]
  rw [cross_dot_self_left (p.frame 2) du, zero_smul, sub_zero]
  by_cases hc : Rev.vnorm (Rev.cross (p.frame 2) du) > Rev.TOL
  · rw [if_pos hc]
    congr 1
    unfold Rev.normalized
    rw [smul_smul, mul_inv_cancel₀ (ne_of_gt (lt_trans rev_TOL_pos hc)),
      one_smul]
  · rw [if_neg hc]
    rfl

/-- Witness for C10 at `linePatch` and `(u, v) = (0, 0)`, where the
u-derivative is the rotation of `(0, 1, 0)` by angle `0`. -/
theorem revolution_2nd_derivative_uv_cross_witness :
    linePatch.profile = some lineProfile ∧
      Rev.norm2 (linePatch.frame 2) = 1 ∧
      Rev.RevolutionPatch.evaluate_derivative_u linePatch 0 0
        = Except.ok (Rev.rotate 0 (linePatch.frame 2)
            (lineProfile.evaluate_derivative 0)) ∧
      Rev.RevolutionPatch.evaluate_2nd_derivative_uv linePatch 0 0
        = Except.ok (Rev.cross (linePatch.frame 2)
            (Rev.rotate 0 (linePatch.frame 2)
              (lineProfile.evaluate_derivative 0))) :=
  ⟨rfl, linePatch_axis_unit, rfl,
    revolution_2nd_derivative_uv_cross linePatch lineProfile 0 0 rfl
      linePatch_axis_unit
      (Rev.rotate 0 (linePatch.frame 2) (lineProfile.evaluate_derivative 0))
      rfl⟩
